import Mathlib

/-!
Shallow embedding of the camera SMS relay notification pipeline
(`twilio_camera_relay.py` and `camera-notification-bridge/src/sms_gateway.py`).
Python dictionaries holding JSON-like payload data are modelled as
association lists over `Val`; wall-clock instants are modelled as integer
seconds and times of day as natural-number minutes since midnight.
-/

/-- A JSON-like payload value: a string or a nested object.  Other JSON
value kinds never influence the control paths modelled here. -/
inductive Val where
  | str : String → Val
  | obj : List (String × Val) → Val

/-- Python `d.get(k)` on a dict modelled as an association list (the first
binding wins; dict keys are unique). -/
def dget (data : List (String × Val)) (k : String) : Option Val :=
  (data.find? (fun p => p.1 == k)).map (fun p => p.2)

/-- Python `d.get(k, default)`. -/
def dgetD (data : List (String × Val)) (k : String) (d : Val) : Val :=
  (dget data k).getD d

/-- The canonical event produced by `CameraEventProcessor._normalize_event`.
`timestamp = none` encodes the Python default `datetime.now()` taken at
normalization time; `some v` is a value coming from the payload. -/
structure Event where
  camera_id : Val
  event_type : Val
  timestamp : Option Val
  priority : Val
  raw : List (String × Val)

/-- `CameraEventProcessor._parse_dahua_code`: fixed code-to-label table,
unseen codes pass through unchanged. -/
def parse_dahua_code (code : String) : String :=
  match code with
  | "VideoMotion" => "Motion detected"
  | "VideoLoss" => "Video loss"
  | "VideoBlind" => "Camera blocked"
  | "AlarmLocal" => "Local alarm"
  | "CrossLineDetection" => "Line crossed"
  | "CrossRegionDetection" => "Region intrusion"
  | "LeftDetection" => "Object left"
  | "TakenAwayDetection" => "Object removed"
  | c => c

/-- Python `pat in s` on strings (substring test). -/
def str_contains (s pat : String) : Bool :=
  (s.splitOn pat).length != 1

/-- `CameraEventProcessor._normalize_event`.  Returns `.error` exactly where
the Python raises an exception (calling `.get` on a non-dict wrapper value,
or hashing a dict-valued Dahua code in `code_map.get`); every other
structured payload yields an event. -/
def normalize_event (data : List (String × Val)) : Except String Event :=
  match dget data "EventNotificationAlert" with
  | some (Val.obj alert) =>
      Except.ok ⟨dgetD alert "ipAddress" (Val.str "unknown"),
        dgetD alert "eventType" (Val.str "motion"),
        dget alert "dateTime",
        (match dget alert "eventType" with
         | some (Val.str s) =>
             if s == "fielddetection" then Val.str "high" else Val.str "normal"
         | _ => Val.str "normal"),
        data⟩
  | some (Val.str _) => Except.error "AttributeError"
  | none =>
      if (match dget data "Action" with
          | some (Val.str s) => s == "Pulse"
          | _ => false) then
        match dgetD data "Code" (Val.str "VideoMotion") with
        | Val.str code =>
            Except.ok ⟨dgetD data "SerialID" (dgetD data "DeviceID" (Val.str "unknown")),
              Val.str (parse_dahua_code code),
              none,
              if str_contains code "Alarm" then Val.str "high" else Val.str "normal",
              data⟩
        | Val.obj _ => Except.error "TypeError"
      else
        match dget data "camera" with
        | some _ =>
            Except.ok ⟨dgetD data "camera" (Val.str "unknown"),
              dgetD data "trigger" (Val.str "motion"),
              none,
              dgetD data "priority" (Val.str "normal"),
              data⟩
        | none =>
            Except.ok ⟨dgetD data "camera_id" (dgetD data "id" (Val.str "unknown")),
              dgetD data "event_type" (dgetD data "type" (Val.str "motion")),
              dget data "timestamp",
              dgetD data "priority" (Val.str "normal"),
              data⟩

/-- The `notifications.quiet_hours` configuration block: enabled flag plus
start and end times of day (minutes since midnight; the Python compares
`datetime.time` values, which order exactly like these minutes). -/
structure QuietHoursConfig where
  enabled : Bool
  start : Nat
  end_ : Nat

/-- `CameraEventProcessor._in_quiet_hours`. -/
def in_quiet_hours (cfg : QuietHoursConfig) (now : Nat) : Bool :=
  if cfg.enabled = false then false
  else if cfg.end_ < cfg.start then
    decide (cfg.start ≤ now) || decide (now ≤ cfg.end_)
  else
    decide (cfg.start ≤ now) && decide (now ≤ cfg.end_)

/-- Python `event.get('priority') != 'high'`, negated: true exactly when the
priority value is the string "high". -/
def is_high_priority (v : Val) : Bool :=
  match v with
  | .str s => s == "high"
  | .obj _ => false

/-- The suppression decision taken in `CameraEventProcessor.process_event`:
the event is dropped when `_in_quiet_hours()` holds and the priority is not
the string "high". -/
def quiet_suppressed (cfg : QuietHoursConfig) (e : Event) (now : Nat) : Bool :=
  in_quiet_hours cfg now && !(is_high_priority e.priority)

/-- C1: if quiet hours are disabled the event is never suppressed; a
priority-high event is never suppressed; and a non-high event is suppressed
exactly when the time of day lies in the configured window, which wraps
midnight when start > end (now ≥ start or now ≤ end), and otherwise means
start ≤ now ≤ end. -/
theorem quiet_hours_spec (cfg : QuietHoursConfig) (e : Event) (now : Nat) :
    (cfg.enabled = false → quiet_suppressed cfg e now = false)
    ∧ (e.priority = Val.str "high" → quiet_suppressed cfg e now = false)
    ∧ (e.priority ≠ Val.str "high" → cfg.enabled = true →
        (quiet_suppressed cfg e now = true ↔
          (if cfg.end_ < cfg.start then cfg.start ≤ now ∨ now ≤ cfg.end_
           else cfg.start ≤ now ∧ now ≤ cfg.end_))) := by
  refine ⟨?_, ?_, ?_⟩
  · intro h
    simp [quiet_suppressed, in_quiet_hours, h]
  · intro h
    simp [quiet_suppressed, is_high_priority, h]
  · intro hne hen
    have hhp : is_high_priority e.priority = false := by
      cases hp : e.priority with
      | str s =>
        simp only [is_high_priority, beq_eq_false_iff_ne, ne_eq]
        intro hs
        exact hne (by rw [hp, hs])
      | obj fs => simp [is_high_priority]
    simp [quiet_suppressed, in_quiet_hours, hen, hhp]

/-- Witness for C1 at a concrete input: window 22:00 to 07:00 (wrapping
midnight), a normal-priority event at 23:30 is suppressed. -/
theorem quiet_hours_spec_witness :
    quiet_suppressed ⟨true, 1320, 420⟩
      ⟨Val.str "cam1", Val.str "motion", none, Val.str "normal", []⟩ 1410 = true := by
  have h := quiet_hours_spec ⟨true, 1320, 420⟩
    ⟨Val.str "cam1", Val.str "motion", none, Val.str "normal", []⟩ 1410
  exact (h.2.2 (fun hc => absurd (Val.str.inj hc) (by decide)) rfl).mpr (by decide)

/-- The `notifications.rate_limiting` configuration block. -/
structure RateConfig where
  enabled : Bool
  max_per_hour : Nat
  max_per_camera_per_hour : Nat

/-- `RateLimiter` state: per-recipient and per-(recipient, camera) lists of
send timestamps (integer seconds).  The Python defaultdicts are modelled as
total functions defaulting to the empty list. -/
structure RateState where
  sent_messages : String → List Int
  camera_messages : String → String → List Int

/-- The lazy pruning done inside `RateLimiter.can_send`: keep exactly the
timestamps strictly newer than `now` minus one hour (`ts > hour_ago`). -/
def hour_filter (now : Int) (l : List Int) : List Int :=
  l.filter (fun ts => decide (now - 3600 < ts))

/-- `RateLimiter.can_send`: prune both windows, store the pruned lists back,
then admit only if both pruned counts are strictly below their ceilings.
Returns the decision together with the updated (pruned) state. -/
def can_send (st : RateState) (recipient camera : String) (cfg : RateConfig)
    (now : Int) : Bool × RateState :=
  if cfg.enabled = false then (true, st)
  else
    let sent2 := hour_filter now (st.sent_messages recipient)
    let cam2 := hour_filter now (st.camera_messages recipient camera)
    let st2 : RateState :=
      ⟨fun r => if r = recipient then sent2 else st.sent_messages r,
       fun r c => if r = recipient ∧ c = camera then cam2
                  else st.camera_messages r c⟩
    if cfg.max_per_hour ≤ sent2.length then (false, st2)
    else if cfg.max_per_camera_per_hour ≤ cam2.length then (false, st2)
    else (true, st2)

/-- `RateLimiter.record_sent`: append the current timestamp to both
windows. -/
def record_sent (st : RateState) (recipient camera : String) (now : Int) :
    RateState :=
  ⟨fun r => if r = recipient then st.sent_messages r ++ [now]
            else st.sent_messages r,
   fun r c => if r = recipient ∧ c = camera then st.camera_messages r c ++ [now]
              else st.camera_messages r c⟩

/-- An empty rate-limiter state (fresh `RateLimiter()`). -/
def empty_rate_state : RateState :=
  ⟨fun _ => [], fun _ _ => []⟩

/-- Three sends recorded for recipient "a" and camera "b" at times 0, 10
and 20 seconds. -/
def demo_rate_state : RateState :=
  record_sent (record_sent (record_sent empty_rate_state "a" "b" 0)
    "a" "b" 10) "a" "b" 20

/-- C2: with rate limiting enabled, `can_send` admits exactly when, after
lazily discarding timestamps older than one hour, the recipient's global
count is strictly below `max_per_hour` and the per-camera count is strictly
below `max_per_camera_per_hour`; `record_sent` appends the current
timestamp to both windows; and in particular with `max_per_hour = 3`, after
three recorded sends within the hour a fourth `can_send` is denied, and it
is admitted again once one of the timestamps has aged past one hour. -/
theorem rate_limiter_spec (st : RateState) (r c : String) (cfg : RateConfig)
    (now : Int) (henabled : cfg.enabled = true) :
    ((can_send st r c cfg now).1 = true ↔
      ((hour_filter now (st.sent_messages r)).length < cfg.max_per_hour
        ∧ (hour_filter now (st.camera_messages r c)).length
            < cfg.max_per_camera_per_hour))
    ∧ ((record_sent st r c now).sent_messages r = st.sent_messages r ++ [now]
        ∧ (record_sent st r c now).camera_messages r c
            = st.camera_messages r c ++ [now])
    ∧ ((can_send demo_rate_state "a" "b" ⟨true, 3, 10⟩ 100).1 = false
        ∧ (can_send demo_rate_state "a" "b" ⟨true, 3, 10⟩ 3601).1 = true) := by
  refine ⟨?_, ⟨by simp [record_sent], by simp [record_sent]⟩, by decide, by decide⟩
  simp only [can_send, henabled]
  split
  · rename_i h
    simp at h
  · split
    · rename_i hg
      simp [Nat.not_lt.mpr hg]
    · split
      · rename_i hg hc
        simp [Nat.not_lt.mpr hc]
      · rename_i hg hc
        simp [Nat.not_le.mp hg, Nat.not_le.mp hc]

/-- Witness for C2: after three recorded sends within the hour, a fourth
`can_send` for the same recipient is denied. -/
theorem rate_limiter_spec_witness :
    (can_send demo_rate_state "a" "b" ⟨true, 3, 10⟩ 100).1 = false :=
  (rate_limiter_spec demo_rate_state "a" "b" ⟨true, 3, 10⟩ 100 rfl).2.2.1

/-- The `notifications.batching` configuration block. -/
structure BatchConfig where
  enabled : Bool
  window_seconds : Int
  max_batch_size : Nat

/-- A batch key: `(recipient['number'], camera_id)`. -/
abbrev BatchKey := String × String

/-- The slice of a configured recipient that `NotificationBatcher` reads
(only the phone number is consulted on this path). -/
structure Recipient where
  number : String

/-- One entry of a pending list, as appended by
`NotificationBatcher.add_notification`. -/
structure Notification where
  recipient : Recipient
  camera_id : String
  event : Event
  time : Int

/-- `NotificationBatcher` state: pending lists and first-event times, keyed
by `(recipient number, camera id)`.  The Python defaultdict of lists is a
total function defaulting to `[]`; absence from `first_event_time` is
`none`. -/
structure BatcherState where
  pending : BatchKey → List Notification
  first_event_time : BatchKey → Option Int

/-- A two-digit decimal rendering, as in `strftime`. -/
def pad2 (n : Nat) : String :=
  if n < 10 then "0" ++ toString n else toString n

/-- `datetime.strftime('%H:%M')` on an instant in integer seconds. -/
def hhmm (now : Int) : String :=
  let m := (now / 60) % 1440
  pad2 ((m / 60).toNat) ++ ":" ++ pad2 ((m % 60).toNat)

/-- Python `str()`-style rendering of a payload value when it is spliced
into a message (non-string values are abstracted to a fixed token). -/
def val_str : Val → String
  | .str s => s
  | .obj _ => "object"

/-- The per-event time shown by the multi-event branch of
`_format_message`: Python calls `.strftime` on
`event.get('timestamp', datetime.now())`.  A normalization-time default
(`none`, a datetime) formats; a payload-supplied value (`some v`, a JSON
string or object) has no `.strftime`, so the call raises AttributeError. -/
def ts_str (t : Option Val) (now : Int) : Except String String :=
  match t with
  | none => Except.ok (hhmm now)
  | some _ => Except.error "AttributeError"

/-- `NotificationBatcher._format_message` with the default
`notifications.message_format` template
(camera name, then event type, then the current time); `mapping` is the
configured `cameras.camera_id_mapping`, falling back to the raw id.
Multiple events produce a count header plus the last three event lines;
rendering such a line raises AttributeError when the event's timestamp
came from the payload (see `ts_str`), and the exception propagates to the
caller. -/
def format_message (mapping : List (String × String)) (events : List Event)
    (camera_id : String) (now : Int) : Except String String :=
  let camera_name := (List.lookup camera_id mapping).getD camera_id
  match events with
  | [e] =>
    Except.ok (camera_name ++ ": " ++ val_str e.event_type ++ " detected at "
      ++ hhmm now)
  | _ =>
    let header := "🚨 " ++ camera_name ++ ": " ++ toString events.length ++ " alerts\n"
    (events.drop (events.length - 3)).foldlM
      (fun acc e => (ts_str e.timestamp now).map
        (fun t => acc ++ "• " ++ val_str e.event_type ++ " at " ++ t ++ "\n"))
      header

/-- Result of one batcher operation: the new batcher state, the new rate
limiter state, and the list of (recipient number, message) pairs handed to
the SMS sender during the operation. -/
structure StepResult where
  batcher : BatcherState
  rate : RateState
  sent : List (String × String)

/-- `NotificationBatcher._send_immediate`: check the rate limit (which
prunes), give up silently on denial, otherwise send a single-event message
and record it only if the sender reported success (`sendOk`).  The list
handed to `_format_message` has one element, so its total single-event
branch applies; the error arm is unreachable and returns the component
states at the raise point. -/
def send_immediate (st : BatcherState) (rl : RateState) (rcfg : RateConfig)
    (mapping : List (String × String)) (now : Int) (sendOk : Bool)
    (recipient : Recipient) (camera_id : String) (event : Event) : StepResult :=
  let cs := can_send rl recipient.number camera_id rcfg now
  if cs.1 = false then ⟨st, cs.2, []⟩
  else
    match format_message mapping [event] camera_id now with
    | Except.error _ => ⟨st, cs.2, []⟩
    | Except.ok message =>
      let rl2 := if sendOk then record_sent cs.2 recipient.number camera_id now else cs.2
      ⟨st, rl2, [(recipient.number, message)]⟩

/-- `NotificationBatcher.add_notification`: with batching disabled, bypass
to `_send_immediate`; otherwise record the first-event time if the key has
none and append the notification to the key's pending list. -/
def add_notification (bcfg : BatchConfig) (st : BatcherState) (rl : RateState)
    (rcfg : RateConfig) (mapping : List (String × String)) (now : Int)
    (sendOk : Bool) (recipient : Recipient) (camera_id : String)
    (event : Event) : StepResult :=
  if bcfg.enabled = false then
    send_immediate st rl rcfg mapping now sendOk recipient camera_id event
  else
    let key : BatchKey := (recipient.number, camera_id)
    let fet := match st.first_event_time key with
      | none => fun k => if k = key then some now else st.first_event_time k
      | some _ => st.first_event_time
    ⟨⟨fun k => if k = key then
          st.pending k ++ [⟨recipient, camera_id, event, now⟩]
        else st.pending k, fet⟩, rl, []⟩

/-- Outcome of one `_send_batch` call: a normal return, or a Python
exception escaping it, together with the component states it leaves behind
in either case (mutations made before a raise persist). -/
inductive BatchOutcome where
  | ok : StepResult → BatchOutcome
  | exc : String → StepResult → BatchOutcome

/-- `NotificationBatcher._send_batch`: nothing to do on an empty pending
list; on rate-limit denial keep the batch untouched for the next window;
otherwise format one message from all accumulated events — which raises
AttributeError for a multi-event batch whose shown events include a
payload-supplied timestamp, the exception escaping before anything is
sent, recorded or cleared — then send it, record the send only if the
sender reported success, and clear both the pending list and the
first-event time entry regardless of the send outcome. -/
def send_batch_run (st : BatcherState) (rl : RateState) (rcfg : RateConfig)
    (mapping : List (String × String)) (now : Int) (sendOk : Bool)
    (key : BatchKey) : BatchOutcome :=
  let notifications := st.pending key
  if notifications.isEmpty then BatchOutcome.ok ⟨st, rl, []⟩
  else
    let cs := can_send rl key.1 key.2 rcfg now
    if cs.1 = false then BatchOutcome.ok ⟨st, cs.2, []⟩
    else
      let events := notifications.map (fun n => n.event)
      match format_message mapping events key.2 now with
      | Except.error e => BatchOutcome.exc e ⟨st, cs.2, []⟩
      | Except.ok message =>
        let rl2 := if sendOk then record_sent cs.2 key.1 key.2 now else cs.2
        BatchOutcome.ok ⟨⟨fun k => if k = key then [] else st.pending k,
          fun k => if k = key then none else st.first_event_time k⟩,
         rl2, [(key.1, message)]⟩

/-- The component states a `_send_batch` call leaves behind, whether it
returned normally or raised. -/
def batch_state : BatchOutcome → StepResult
  | .ok r => r
  | .exc _ r => r

/-- The state effect of one `_send_batch` call (normal return or raise). -/
def send_batch (st : BatcherState) (rl : RateState) (rcfg : RateConfig)
    (mapping : List (String × String)) (now : Int) (sendOk : Bool)
    (key : BatchKey) : StepResult :=
  batch_state (send_batch_run st rl rcfg mapping now sendOk key)

/-- A concrete normalized event used by several witnesses. -/
def demo_event : Event :=
  ⟨Val.str "cam1", Val.str "motion", none, Val.str "normal", []⟩

/-- A concrete pending notification for recipient "a" and camera "b". -/
def demo_notification : Notification :=
  ⟨⟨"a"⟩, "b", demo_event, 0⟩

/-- A batcher state in which every key holds one pending notification whose
first-event time is 0. -/
def demo_batcher_state : BatcherState :=
  ⟨fun _ => [demo_notification], fun _ => some 0⟩

/-- C4: when the rate limiter denies a flush, `_send_batch` sends nothing
and leaves the batcher state unchanged (the pending list keeps exactly the
accumulated events and stays non-empty, and the first-event time entry is
untouched); only the limiter state is lazily pruned. -/
theorem batch_denied_spec (st : BatcherState) (rl : RateState)
    (rcfg : RateConfig) (mapping : List (String × String)) (now : Int)
    (sendOk : Bool) (key : BatchKey)
    (hne : (st.pending key).isEmpty = false)
    (hdenied : (can_send rl key.1 key.2 rcfg now).1 = false) :
    send_batch st rl rcfg mapping now sendOk key
      = ⟨st, (can_send rl key.1 key.2 rcfg now).2, []⟩
    ∧ ((send_batch st rl rcfg mapping now sendOk key).batcher.pending key).isEmpty
        = false := by
  constructor
  · simp [send_batch, send_batch_run, batch_state, hne, hdenied]
  · simp [send_batch, send_batch_run, batch_state, hne, hdenied]

/-- Witness for C4: with three sends already recorded in the hour, a flush
for the same key is denied and the batch of one notification is kept. -/
theorem batch_denied_spec_witness :
    send_batch demo_batcher_state demo_rate_state ⟨true, 3, 10⟩ [] 100 true ("a", "b")
      = ⟨demo_batcher_state, (can_send demo_rate_state "a" "b" ⟨true, 3, 10⟩ 100).2, []⟩
    ∧ ((send_batch demo_batcher_state demo_rate_state ⟨true, 3, 10⟩ [] 100 true
          ("a", "b")).batcher.pending ("a", "b")).isEmpty = false :=
  batch_denied_spec demo_batcher_state demo_rate_state ⟨true, 3, 10⟩ [] 100 true
    ("a", "b") rfl (by decide)

/-- A pending notification whose event carries a payload-supplied string
timestamp, as the Hikvision branch stores for a payload `dateTime` (and
the generic branch for a payload `timestamp`). -/
def demo_payload_ts_notification : Notification :=
  ⟨⟨"a"⟩, "b",
   ⟨Val.str "cam1", Val.str "motion", some (Val.str "2025-01-01 00:00:00"),
    Val.str "normal", []⟩, 0⟩

/-- A batcher state in which every key holds a two-event batch of
payload-timestamped notifications, first seen at time 0. -/
def demo_crash_batcher_state : BatcherState :=
  ⟨fun _ => [demo_payload_ts_notification, demo_payload_ts_notification],
   fun _ => some 0⟩

/-- C5: evaluation of the code at the failing input.  The rate limiter
admits the flush of a two-event batch whose events carry payload-supplied
timestamps; `_format_message` raises AttributeError at the `.strftime`
call on the string timestamp, and the exception escapes `_send_batch` with
nothing sent, nothing recorded, and the pending list and first-event time
entry still in place — not one formatted message sent and the key cleared
regardless of the send outcome, as the claim (and the spec) state. -/
theorem batch_admitted_crash :
    (can_send empty_rate_state "a" "b" ⟨true, 3, 10⟩ 100).1 = true
    ∧ send_batch_run demo_crash_batcher_state empty_rate_state ⟨true, 3, 10⟩ []
        100 true ("a", "b")
      = BatchOutcome.exc "AttributeError"
          ⟨demo_crash_batcher_state,
           (can_send empty_rate_state "a" "b" ⟨true, 3, 10⟩ 100).2, []⟩
    ∧ (send_batch demo_crash_batcher_state empty_rate_state ⟨true, 3, 10⟩ []
        100 true ("a", "b")).sent = []
    ∧ (send_batch demo_crash_batcher_state empty_rate_state ⟨true, 3, 10⟩ []
        100 true ("a", "b")).batcher.pending ("a", "b")
      = [demo_payload_ts_notification, demo_payload_ts_notification]
    ∧ (send_batch demo_crash_batcher_state empty_rate_state ⟨true, 3, 10⟩ []
        100 true ("a", "b")).batcher.first_event_time ("a", "b") = some 0 :=
  ⟨by decide, rfl, rfl, rfl, rfl⟩

/-- C10: with batching disabled, `add_notification` bypasses to
`_send_immediate`; if the rate limiter denies that immediate send, the call
returns with nothing sent, nothing recorded, and nothing enqueued — the
batcher state is unchanged and the limiter state is only pruned, so the
event is dropped rather than held for retry. -/
theorem immediate_drop_spec (bcfg : BatchConfig) (st : BatcherState)
    (rl : RateState) (rcfg : RateConfig) (mapping : List (String × String))
    (now : Int) (sendOk : Bool) (recipient : Recipient) (camera_id : String)
    (event : Event)
    (hdis : bcfg.enabled = false)
    (hdenied : (can_send rl recipient.number camera_id rcfg now).1 = false) :
    add_notification bcfg st rl rcfg mapping now sendOk recipient camera_id event
      = send_immediate st rl rcfg mapping now sendOk recipient camera_id event
    ∧ add_notification bcfg st rl rcfg mapping now sendOk recipient camera_id event
      = ⟨st, (can_send rl recipient.number camera_id rcfg now).2, []⟩ := by
  constructor
  · simp [add_notification, hdis]
  · simp [add_notification, hdis, send_immediate, hdenied]

/-- Witness for C10: with batching disabled and the demo limiter saturated,
an added notification is dropped outright. -/
theorem immediate_drop_spec_witness :
    add_notification ⟨false, 300, 5⟩ demo_batcher_state demo_rate_state
        ⟨true, 3, 10⟩ [] 100 true ⟨"a"⟩ "b" demo_event
      = send_immediate demo_batcher_state demo_rate_state ⟨true, 3, 10⟩ [] 100 true
          ⟨"a"⟩ "b" demo_event
    ∧ add_notification ⟨false, 300, 5⟩ demo_batcher_state demo_rate_state
        ⟨true, 3, 10⟩ [] 100 true ⟨"a"⟩ "b" demo_event
      = ⟨demo_batcher_state, (can_send demo_rate_state "a" "b" ⟨true, 3, 10⟩ 100).2, []⟩ :=
  immediate_drop_spec ⟨false, 300, 5⟩ demo_batcher_state demo_rate_state
    ⟨true, 3, 10⟩ [] 100 true ⟨"a"⟩ "b" demo_event rfl (by decide)

/-- Result of one pass of the background scheduler loop
(`NotificationBatcher._process_batches`): final states, all messages handed
to the sender, and the keys for which a flush was attempted
(`_send_batch` was invoked). -/
structure TickResult where
  batcher : BatcherState
  rate : RateState
  sent : List (String × String)
  attempted : List BatchKey

/-- Outcome of one pass of the scheduler loop: a normal pass, or a Python
exception aborting the loop partway (it also kills the daemon thread),
together with the state at that point. -/
inductive TickOutcome where
  | ok : TickResult → TickOutcome
  | exc : String → TickResult → TickOutcome

/-- One scheduler tick of `NotificationBatcher._process_batches` (the loop
body runs every 10 seconds): iterate over a snapshot of the pending keys;
skip a key whose pending list is empty or whose first-event time is absent;
otherwise flush via `_send_batch` exactly when the elapsed time since the
first event reaches `window_seconds` or the pending count reaches
`max_batch_size`.  An exception escaping `_send_batch` aborts the loop:
the remaining keys of the snapshot are not examined. -/
def process_tick_run (rcfg : RateConfig) (mapping : List (String × String))
    (window : Int) (max_batch : Nat) (now : Int) (sendOkF : BatchKey → Bool) :
    List BatchKey → BatcherState → RateState → TickOutcome
  | [], st, rl => TickOutcome.ok ⟨st, rl, [], []⟩
  | key :: rest, st, rl =>
    if (st.pending key).isEmpty then
      process_tick_run rcfg mapping window max_batch now sendOkF rest st rl
    else
      match st.first_event_time key with
      | none => process_tick_run rcfg mapping window max_batch now sendOkF rest st rl
      | some t =>
        if window ≤ now - t ∨ max_batch ≤ (st.pending key).length then
          match send_batch_run st rl rcfg mapping now (sendOkF key) key with
          | BatchOutcome.exc e r =>
              TickOutcome.exc e ⟨r.batcher, r.rate, r.sent, [key]⟩
          | BatchOutcome.ok r =>
            match process_tick_run rcfg mapping window max_batch now sendOkF rest
                r.batcher r.rate with
            | TickOutcome.ok r2 =>
                TickOutcome.ok ⟨r2.batcher, r2.rate, r.sent ++ r2.sent,
                  key :: r2.attempted⟩
            | TickOutcome.exc e r2 =>
                TickOutcome.exc e ⟨r2.batcher, r2.rate, r.sent ++ r2.sent,
                  key :: r2.attempted⟩
        else
          process_tick_run rcfg mapping window max_batch now sendOkF rest st rl

/-- The state a tick leaves behind, whether the loop finished or aborted;
its `attempted` field lists the keys for which `_send_batch` was actually
invoked. -/
def tick_state : TickOutcome → TickResult
  | .ok r => r
  | .exc _ r => r

/-- The state effect of one scheduler tick (normal pass or abort). -/
def process_tick (rcfg : RateConfig) (mapping : List (String × String))
    (window : Int) (max_batch : Nat) (now : Int) (sendOkF : BatchKey → Bool)
    (keys : List BatchKey) (st : BatcherState) (rl : RateState) : TickResult :=
  tick_state (process_tick_run rcfg mapping window max_batch now sendOkF keys st rl)

/-- A batcher state whose key ("a", "b") holds the crashing two-event batch
and whose other keys each hold one eligible notification, all first seen at
time 0. -/
def demo_two_key_state : BatcherState :=
  ⟨fun k => if k = ("a", "b") then
      [demo_payload_ts_notification, demo_payload_ts_notification]
    else [demo_notification],
   fun _ => some 0⟩

/-- C3: evaluation of the code at the failing input.  On a tick over the
snapshot [("a","b"), ("c","d")] at time 400 with window 300, both keys meet
the elapsed-window flush condition, but flushing ("a","b") raises
AttributeError inside `_format_message`; the exception aborts the loop (and
the daemon thread), so `_send_batch` is never invoked for ("c","d") — no
flush of that key is attempted on the tick although its condition holds,
contrary to the claim's per-tick iff. -/
theorem tick_abort_crash :
    ((300 : Int) ≤ 400 - 0
      ∧ (demo_two_key_state.pending ("c", "d")).isEmpty = false
      ∧ demo_two_key_state.first_event_time ("c", "d") = some 0)
    ∧ process_tick_run ⟨true, 3, 10⟩ [] 300 5 400 (fun _ => true)
        [("a", "b"), ("c", "d")] demo_two_key_state empty_rate_state
      = TickOutcome.exc "AttributeError"
          ⟨demo_two_key_state,
           (can_send empty_rate_state "a" "b" ⟨true, 3, 10⟩ 400).2,
           [], [("a", "b")]⟩
    ∧ ("c", "d") ∉ (process_tick ⟨true, 3, 10⟩ [] 300 5 400 (fun _ => true)
        [("a", "b"), ("c", "d")] demo_two_key_state empty_rate_state).attempted :=
  ⟨⟨by decide, rfl, rfl⟩, rfl, by decide⟩

/-- The batcher invariant of the spec: a key has a first-event time
recorded exactly when its pending list is non-empty. -/
def batcher_inv (st : BatcherState) : Prop :=
  ∀ k, (st.first_event_time k).isSome = true ↔ st.pending k ≠ []

/-- `_send_immediate` never touches the batcher state. -/
theorem send_immediate_batcher (st : BatcherState) (rl : RateState)
    (rcfg : RateConfig) (mapping : List (String × String)) (now : Int)
    (sendOk : Bool) (recipient : Recipient) (camera_id : String) (event : Event) :
    (send_immediate st rl rcfg mapping now sendOk recipient camera_id
      event).batcher = st := by
  by_cases h : (can_send rl recipient.number camera_id rcfg now).1 = false
  · simp [send_immediate, h]
  · simp [send_immediate, h, format_message]

/-- `add_notification` preserves the batcher invariant. -/
theorem batcher_inv_add (bcfg : BatchConfig) (st : BatcherState)
    (rl : RateState) (rcfg : RateConfig) (mapping : List (String × String))
    (now : Int) (sendOk : Bool) (recipient : Recipient) (camera_id : String)
    (event : Event) (hinv : batcher_inv st) :
    batcher_inv (add_notification bcfg st rl rcfg mapping now sendOk recipient
      camera_id event).batcher := by
  by_cases hb : bcfg.enabled = false
  · simp only [add_notification, hb, if_true, send_immediate_batcher]
    exact hinv
  · simp only [Bool.not_eq_false] at hb
    simp only [add_notification, hb, Bool.true_eq_false, if_false]
    cases hf : st.first_event_time (recipient.number, camera_id) with
    | none =>
      intro k
      by_cases hk : k = (recipient.number, camera_id)
      · subst hk
        simp
      · simp only [hk, if_false]
        exact hinv k
    | some t0 =>
      intro k
      by_cases hk : k = (recipient.number, camera_id)
      · subst hk
        simp [hf]
      · simp only [hk, if_false]
        exact hinv k

/-- `_send_batch` preserves the batcher invariant. -/
theorem batcher_inv_send (st : BatcherState) (rl : RateState)
    (rcfg : RateConfig) (mapping : List (String × String)) (now : Int)
    (sendOk : Bool) (key : BatchKey) (hinv : batcher_inv st) :
    batcher_inv (send_batch st rl rcfg mapping now sendOk key).batcher := by
  by_cases h1 : (st.pending key).isEmpty
  · simp only [send_batch, send_batch_run, h1, if_true, batch_state]
    exact hinv
  · by_cases h2 : (can_send rl key.1 key.2 rcfg now).1 = false
    · simp only [send_batch, send_batch_run, h1, Bool.false_eq_true, if_false,
        h2, if_true, batch_state]
      exact hinv
    · simp only [Bool.not_eq_false] at h2
      cases hm : format_message mapping ((st.pending key).map (fun n => n.event))
          key.2 now with
      | error e =>
        simp only [send_batch, send_batch_run, h1, Bool.false_eq_true, if_false,
          h2, Bool.true_eq_false, hm, batch_state]
        exact hinv
      | ok message =>
        simp only [send_batch, send_batch_run, h1, Bool.false_eq_true, if_false,
          h2, Bool.true_eq_false, hm, batch_state]
        intro k
        by_cases hk : k = key
        · subst hk
          simp
        · simp only [hk, if_false]
          exact hinv k

/-- A scheduler tick preserves the batcher invariant. -/
theorem batcher_inv_tick (rcfg : RateConfig) (mapping : List (String × String))
    (window : Int) (max_batch : Nat) (now : Int) (sendOkF : BatchKey → Bool)
    (keys : List BatchKey) :
    ∀ (st : BatcherState) (rl : RateState), batcher_inv st →
      batcher_inv (process_tick rcfg mapping window max_batch now sendOkF keys
        st rl).batcher := by
  induction keys with
  | nil =>
    intro st rl h
    simpa [process_tick, process_tick_run, tick_state] using h
  | cons key rest ih =>
    intro st rl h
    simp only [process_tick, process_tick_run]
    by_cases h1 : (st.pending key).isEmpty
    · simp only [h1, if_true]
      exact ih st rl h
    · simp only [h1, Bool.false_eq_true, if_false]
      cases hf : st.first_event_time key with
      | none => exact ih st rl h
      | some t =>
        by_cases hc : window ≤ now - t ∨ max_batch ≤ (st.pending key).length
        · simp only [hc, if_true]
          have hsb := batcher_inv_send st rl rcfg mapping now (sendOkF key) key h
          cases hr : send_batch_run st rl rcfg mapping now (sendOkF key) key with
          | ok r =>
            have hrb : batcher_inv r.batcher := by
              simpa only [send_batch, hr, batch_state] using hsb
            dsimp only
            cases h2 : process_tick_run rcfg mapping window max_batch now sendOkF
                rest r.batcher r.rate with
            | ok r2 =>
              have hrec := ih r.batcher r.rate hrb
              simp only [process_tick, h2, tick_state] at hrec
              exact hrec
            | exc e r2 =>
              have hrec := ih r.batcher r.rate hrb
              simp only [process_tick, h2, tick_state] at hrec
              exact hrec
          | exc e r =>
            have hrb : batcher_inv r.batcher := by
              simpa only [send_batch, hr, batch_state] using hsb
            simpa only [tick_state] using hrb
        · simp only [hc, if_false]
          exact ih st rl h

/-- C6: the invariant "a key is present in first_event_time iff its pending
list is non-empty" is preserved by `add_notification`, by a `_send_batch`
flush attempt (denied, failed or successful), and by a whole scheduler
tick. -/
theorem batcher_invariant_spec (bcfg : BatchConfig) (st : BatcherState)
    (rl : RateState) (rcfg : RateConfig) (mapping : List (String × String))
    (now : Int) (sendOk : Bool) (recipient : Recipient) (camera_id : String)
    (event : Event) (key : BatchKey) (sendOkF : BatchKey → Bool)
    (keys : List BatchKey) (hinv : batcher_inv st) :
    batcher_inv (add_notification bcfg st rl rcfg mapping now sendOk recipient
      camera_id event).batcher
    ∧ batcher_inv (send_batch st rl rcfg mapping now sendOk key).batcher
    ∧ batcher_inv (process_tick rcfg mapping bcfg.window_seconds
        bcfg.max_batch_size now sendOkF keys st rl).batcher :=
  ⟨batcher_inv_add bcfg st rl rcfg mapping now sendOk recipient camera_id
      event hinv,
   batcher_inv_send st rl rcfg mapping now sendOk key hinv,
   batcher_inv_tick rcfg mapping bcfg.window_seconds bcfg.max_batch_size now
      sendOkF keys st rl hinv⟩

/-- Witness for C6: adding a notification to the demo state (which
satisfies the invariant) keeps the invariant. -/
theorem batcher_invariant_spec_witness :
    batcher_inv (add_notification ⟨true, 300, 5⟩ demo_batcher_state
      empty_rate_state ⟨true, 3, 10⟩ [] 50 true ⟨"a"⟩ "b" demo_event).batcher :=
  (batcher_invariant_spec ⟨true, 300, 5⟩ demo_batcher_state empty_rate_state
    ⟨true, 3, 10⟩ [] 50 true ⟨"a"⟩ "b" demo_event ("a", "b") (fun _ => true) []
    (fun k => by simp [demo_batcher_state, demo_notification])).1

/-- Outcome of invoking one gateway's `send_sms` inside
`SMSGatewayManager.send_sms`: it returned True, returned False, or raised
(the manager catches the exception and moves on). -/
inductive GatewayResult where
  | ok : GatewayResult
  | failed : GatewayResult
  | exn : GatewayResult
deriving DecidableEq

/-- The direct-gateway loop of `SMSGatewayManager.send_sms`: try each
configured gateway in order, returning at the first success; an exception
is caught and treated like a failure.  Also counts how many gateways were
actually invoked. -/
def try_gateways : List GatewayResult → Bool × Nat
  | [] => (false, 0)
  | g :: rest =>
    match g with
    | .ok => (true, 1)
    | .failed => ((try_gateways rest).1, (try_gateways rest).2 + 1)
    | .exn => ((try_gateways rest).1, (try_gateways rest).2 + 1)

/-- What one call of `SMSGatewayManager.send_sms` did: its boolean result,
how many direct gateways were invoked, and whether the carrier-email
gateway was invoked. -/
structure SendOutcome where
  result : Bool
  direct_tried : Nat
  email_tried : Bool

/-- Python truthiness of the optional `carrier` argument (absent or the
empty string are falsy). -/
def truthy : Option String → Bool
  | none => false
  | some s => !(s == "")

/-- `SMSGatewayManager.send_sms`: run the direct-gateway loop; if no direct
gateway succeeded and an email gateway is configured and a truthy carrier
was supplied, return the email gateway's own result (an email exception is
caught and yields False); otherwise return False. -/
def manager_send_sms (gateways : List GatewayResult)
    (email_gateway : Option GatewayResult) (carrier : Option String) :
    SendOutcome :=
  let d := try_gateways gateways
  if d.1 then ⟨true, d.2, false⟩
  else
    match email_gateway, truthy carrier with
    | some r, true => ⟨decide (r = GatewayResult.ok), d.2, true⟩
    | _, _ => ⟨false, d.2, false⟩

/-- The direct loop succeeds exactly when some gateway reports success. -/
theorem try_gateways_ok_iff (gs : List GatewayResult) :
    (try_gateways gs).1 = true ↔ GatewayResult.ok ∈ gs := by
  induction gs with
  | nil => simp [try_gateways]
  | cons g rest ih =>
    cases g with
    | ok => simp [try_gateways]
    | failed => simp [try_gateways, ih]
    | exn => simp [try_gateways, ih]

/-- C8: `send` tries the configured direct channels in order and returns
true exactly when one of them succeeds (or, failing that, the optional
email path succeeds); after the first success no later channel is invoked
(the invocation count stops at the first success); false requires every
configured direct channel to have been invoked; and a channel exception is
caught and treated exactly like a reported failure, never propagated. -/
theorem sms_chain_spec (gateways : List GatewayResult)
    (email_gateway : Option GatewayResult) (carrier : Option String) :
    ((manager_send_sms gateways email_gateway carrier).result = true ↔
      (GatewayResult.ok ∈ gateways
        ∨ (truthy carrier = true ∧ email_gateway = some GatewayResult.ok)))
    ∧ (∀ pre post, gateways = pre ++ GatewayResult.ok :: post →
        GatewayResult.ok ∉ pre →
        (manager_send_sms gateways email_gateway carrier).direct_tried
          = pre.length + 1)
    ∧ (GatewayResult.ok ∉ gateways →
        (manager_send_sms gateways email_gateway carrier).direct_tried
          = gateways.length)
    ∧ (∀ rest : List GatewayResult,
        try_gateways (GatewayResult.exn :: rest)
          = try_gateways (GatewayResult.failed :: rest)) := by
  have htried : (manager_send_sms gateways email_gateway carrier).direct_tried
      = (try_gateways gateways).2 := by
    by_cases hd : (try_gateways gateways).1 = true
    · simp [manager_send_sms, hd]
    · simp only [Bool.not_eq_true] at hd
      simp only [manager_send_sms, hd, Bool.false_eq_true, if_false]
      cases email_gateway with
      | none => rfl
      | some r =>
        cases ht : truthy carrier
        · rfl
        · rfl
  refine ⟨?_, ?_, ?_, fun rest => rfl⟩
  · by_cases hd : (try_gateways gateways).1 = true
    · simp [manager_send_sms, hd, (try_gateways_ok_iff gateways).mp hd]
    · have hni : GatewayResult.ok ∉ gateways :=
        fun hm => hd ((try_gateways_ok_iff gateways).mpr hm)
      simp only [Bool.not_eq_true] at hd
      simp only [manager_send_sms, hd, Bool.false_eq_true, if_false]
      cases email_gateway with
      | none => simp [hni]
      | some r =>
        cases ht : truthy carrier
        · simp [hni, ht]
        · simp only [ht]
          simp [hni, decide_eq_true_eq]
  · intro pre post hsplit hnok
    rw [htried, hsplit]
    clear hsplit htried
    induction pre with
    | nil => simp [try_gateways]
    | cons g pres ih =>
      have hg : g ≠ GatewayResult.ok :=
        fun he => hnok (he ▸ List.mem_cons_self g pres)
      have hpres : GatewayResult.ok ∉ pres :=
        fun hm => hnok (List.mem_cons_of_mem _ hm)
      cases g with
      | ok => exact absurd rfl hg
      | failed => simp [try_gateways, ih hpres]
      | exn => simp [try_gateways, ih hpres]
  · intro hni
    rw [htried]
    clear htried
    induction gateways with
    | nil => rfl
    | cons g rest ih =>
      have hg : g ≠ GatewayResult.ok :=
        fun he => hni (he ▸ List.mem_cons_self g rest)
      have hrest : GatewayResult.ok ∉ rest :=
        fun hm => hni (List.mem_cons_of_mem _ hm)
      cases g with
      | ok => exact absurd rfl hg
      | failed => simp [try_gateways, ih hrest]
      | exn => simp [try_gateways, ih hrest]

/-- Witness for C8: with a failing first channel, a succeeding second and a
third configured after it, exactly two direct channels are invoked. -/
theorem sms_chain_spec_witness :
    (manager_send_sms [GatewayResult.failed, GatewayResult.ok,
        GatewayResult.exn] none none).direct_tried = 2 :=
  (sms_chain_spec [GatewayResult.failed, GatewayResult.ok, GatewayResult.exn]
    none none).2.1 [GatewayResult.failed] [GatewayResult.exn] rfl (by decide)

/-- `filter(str.isdigit, recipient)` in `EmailToSMSGateway.send_sms`. -/
def digits_only (recipient : String) : List Char :=
  recipient.toList.filter Char.isDigit

/-- The digit sequence used to build the carrier gateway address: an
11-digit number whose first digit is 1 loses that leading country-code
digit. -/
def email_number (recipient : String) : List Char :=
  let digits := digits_only recipient
  if digits.length = 11 ∧ digits.head? = some '1' then digits.drop 1
  else digits

/-- `EmailToSMSGateway.send_sms`: reject a falsy or unknown carrier without
sending; otherwise the target address is the stripped digit string followed
by the carrier's gateway suffix, and the boolean is the SMTP outcome
(`smtpOk`; an SMTP exception is caught inside the method and reported as
False).  The second component is the address used, `none` when no send was
attempted. -/
def email_to_sms_send (carriers : List (String × String)) (recipient : String)
    (carrier : Option String) (smtpOk : Bool) : Bool × Option String :=
  match carrier with
  | none => (false, none)
  | some c =>
    if c = "" then (false, none)
    else
      match List.lookup c carriers with
      | none => (false, none)
      | some suffix =>
          (smtpOk, some (String.mk (email_number recipient) ++ suffix))

/-- C9 counterexample: with a succeeding direct channel, a configured email
gateway and a supplied carrier, the email channel is not attempted — so the
claim that it is attempted exactly when a carrier is supplied,
independently of the direct channels' outcomes, is false on the code. -/
theorem email_channel_cex :
    truthy (some "att") = true
    ∧ (manager_send_sms [GatewayResult.ok] (some GatewayResult.ok)
        (some "att")).email_tried = false :=
  ⟨rfl, rfl⟩

/-- C9 (amended): the carrier-email channel is attempted exactly when an
email gateway is configured, the caller supplies a truthy carrier, and no
direct channel succeeded; when used, the gateway address is built from the
recipient's digits with the leading digit stripped exactly for 11-digit
numbers that begin with the digit 1. -/
theorem email_channel_spec (gateways : List GatewayResult)
    (email_gateway : Option GatewayResult) (carrier : Option String)
    (recipient c suffix : String) (carriers : List (String × String))
    (smtpOk : Bool) :
    ((manager_send_sms gateways email_gateway carrier).email_tried = true ↔
      (email_gateway.isSome = true ∧ truthy carrier = true
        ∧ GatewayResult.ok ∉ gateways))
    ∧ (c ≠ "" → List.lookup c carriers = some suffix →
        (email_to_sms_send carriers recipient (some c) smtpOk).2
          = some (String.mk (email_number recipient) ++ suffix))
    ∧ (∀ rest : List Char, digits_only recipient = '1' :: rest →
        rest.length = 10 → email_number recipient = rest)
    ∧ ((digits_only recipient).length ≠ 11 →
        email_number recipient = digits_only recipient) := by
  refine ⟨?_, ?_, ?_, ?_⟩
  · by_cases hd : (try_gateways gateways).1 = true
    · have hm := (try_gateways_ok_iff gateways).mp hd
      simp [manager_send_sms, hd, hm]
    · have hni : GatewayResult.ok ∉ gateways :=
        fun hm => hd ((try_gateways_ok_iff gateways).mpr hm)
      simp only [Bool.not_eq_true] at hd
      simp only [manager_send_sms, hd, Bool.false_eq_true, if_false]
      cases email_gateway with
      | none => simp
      | some r =>
        cases ht : truthy carrier
        · simp [ht]
        · simp [ht, hni]
  · intro hc hl
    simp [email_to_sms_send, hc, hl]
  · intro rest hdig hlen
    simp only [email_number, hdig]
    simp [hlen]
  · intro hll
    simp only [email_number]
    simp [hll]

/-- Witness for C9 (amended), at a concrete 11-digit number starting with
the digit 1: the leading digit is stripped. -/
theorem email_channel_spec_witness :
    email_number "15551234567" = "5551234567".toList :=
  (email_channel_spec [] none none "15551234567" "x" "y" [] true).2.2.1
    "5551234567".toList (by decide) (by decide)

/-- The detection condition of the vendor-wrapper (Hikvision) branch of
`_normalize_event`. -/
def is_hikvision_shape (data : List (String × Val)) : Bool :=
  (dget data "EventNotificationAlert").isSome

/-- The detection condition of the `Action == "Pulse"` (Dahua) branch of
`_normalize_event`. -/
def is_dahua_shape (data : List (String × Val)) : Bool :=
  (dget data "EventNotificationAlert").isNone
  && (match dget data "Action" with
      | some (Val.str s) => s == "Pulse"
      | _ => false)

/-- No string value bound at the top level of the payload, nor inside one
of its object values, is the empty string. -/
def clean_strings (data : List (String × Val)) : Bool :=
  data.all (fun p =>
    match p.2 with
    | .str s => !(s == "")
    | .obj fs => fs.all (fun q =>
        match q.2 with
        | .str s2 => !(s2 == "")
        | .obj _ => true))

/-- A successful `dget` lookup returns a binding of the list. -/
theorem dget_mem {data : List (String × Val)} {k : String} {v : Val}
    (h : dget data k = some v) : (k, v) ∈ data := by
  simp only [dget, Option.map_eq_some'] at h
  obtain ⟨p, hf, hv⟩ := h
  have hm := List.mem_of_find?_eq_some hf
  have hp := List.find?_some hf
  have hk : p.1 = k := by simpa using hp
  obtain ⟨p1, p2⟩ := p
  simp only at hk hv
  rw [← hk, ← hv]
  exact hm

/-- If no value of the list is the empty string and the default is not the
empty string, neither is the looked-up value. -/
theorem dgetD_ne_empty {data : List (String × Val)} {k : String} {d : Val}
    (hvals : ∀ p ∈ data, p.2 ≠ Val.str "") (hd : d ≠ Val.str "") :
    dgetD data k d ≠ Val.str "" := by
  cases hv : dget data k with
  | none => simpa [dgetD, hv] using hd
  | some v =>
    simp only [dgetD, hv, Option.getD_some]
    exact hvals _ (dget_mem hv)

/-- Top-level consequence of `clean_strings`. -/
theorem clean_strings_top {data : List (String × Val)}
    (hcl : clean_strings data = true) : ∀ p ∈ data, p.2 ≠ Val.str "" := by
  intro p hp he
  have hall := List.all_eq_true.mp hcl p hp
  rw [he] at hall
  simp at hall

/-- Nested consequence of `clean_strings` for an object value of the
payload. -/
theorem clean_strings_inner {data fs : List (String × Val)} {k0 : String}
    (hcl : clean_strings data = true) (hk : (k0, Val.obj fs) ∈ data) :
    ∀ q ∈ fs, q.2 ≠ Val.str "" := by
  intro q hq he
  have hall := List.all_eq_true.mp hcl _ hk
  simp only at hall
  have hq2 := List.all_eq_true.mp hall q hq
  rw [he] at hq2
  simp at hq2

/-- C7 counterexample: the payload with a `camera` field and
`priority = "urgent"` is recognized by the Blue Iris branch (the two
earlier branch conditions do not fire), yet the produced priority is the
verbatim string "urgent", which is neither "normal" nor "high" — so the
claim that every recognized shape yields a priority in that set is false on
the code. -/
theorem normalize_priority_cex :
    dget [("camera", Val.str "cam1"), ("priority", Val.str "urgent")]
        "EventNotificationAlert" = none
    ∧ dget [("camera", Val.str "cam1"), ("priority", Val.str "urgent")]
        "Action" = none
    ∧ dget [("camera", Val.str "cam1"), ("priority", Val.str "urgent")]
        "camera" = some (Val.str "cam1")
    ∧ normalize_event [("camera", Val.str "cam1"), ("priority", Val.str "urgent")]
      = Except.ok ⟨Val.str "cam1", Val.str "motion", none, Val.str "urgent",
          [("camera", Val.str "cam1"), ("priority", Val.str "urgent")]⟩
    ∧ Val.str "urgent" ≠ Val.str "normal"
    ∧ Val.str "urgent" ≠ Val.str "high" :=
  ⟨rfl, rfl, rfl, rfl, fun h => absurd (Val.str.inj h) (by decide),
    fun h => absurd (Val.str.inj h) (by decide)⟩

/-- C7 (amended): `_normalize_event` succeeds for every structured payload
except when the wrapper value is a bare string (the Python calls `.get` on
it) or a Dahua payload carries an object-valued `Code` (unhashable in
`code_map.get`); every produced event carries the raw payload; the
Hikvision and Dahua branches produce a priority drawn from
normal/high (the Blue Iris and generic branches copy the payload's
priority verbatim); and the produced camera id is never the empty string
provided no string value of the payload or of its nested objects is
empty. -/
theorem normalize_amended (data : List (String × Val)) :
    ((normalize_event data).isOk = true ↔
      ((∀ s, dget data "EventNotificationAlert" ≠ some (Val.str s))
        ∧ (is_dahua_shape data = true →
            ∀ fs, dget data "Code" ≠ some (Val.obj fs))))
    ∧ (∀ e, normalize_event data = Except.ok e → e.raw = data)
    ∧ (∀ e, normalize_event data = Except.ok e →
        (is_hikvision_shape data = true ∨ is_dahua_shape data = true) →
        (e.priority = Val.str "normal" ∨ e.priority = Val.str "high"))
    ∧ (∀ e, normalize_event data = Except.ok e → clean_strings data = true →
        e.camera_id ≠ Val.str "") := by
  refine ⟨?_, ?_, ?_, ?_⟩
  · cases h1 : dget data "EventNotificationAlert" with
    | some v =>
      cases v with
      | str s0 =>
        refine iff_of_false (by simp [normalize_event, h1, Except.isOk, Except.toBool]) ?_
        intro hr
        exact hr.1 s0 rfl
      | obj alert =>
        refine iff_of_true (by simp [normalize_event, h1, Except.isOk, Except.toBool]) ?_
        refine ⟨by simp [h1], ?_⟩
        intro hsh
        simp [is_dahua_shape, h1] at hsh
    | none =>
      by_cases hact : (match dget data "Action" with
          | some (Val.str s) => s == "Pulse"
          | _ => false) = true
      · cases hcode : dgetD data "Code" (Val.str "VideoMotion") with
        | str code =>
          refine iff_of_true (by simp [normalize_event, h1, hact, hcode, Except.isOk, Except.toBool]) ?_
          refine ⟨by simp [h1], ?_⟩
          intro _ fs hco
          simp only [dgetD, hco, Option.getD_some] at hcode
          exact Val.noConfusion hcode
        | obj fs0 =>
          refine iff_of_false (by simp [normalize_event, h1, hact, hcode, Except.isOk, Except.toBool]) ?_
          intro hr
          have hsh : is_dahua_shape data = true := by
            simp [is_dahua_shape, h1, hact]
          refine hr.2 hsh fs0 ?_
          cases hco : dget data "Code" with
          | none => simp [dgetD, hco] at hcode
          | some v =>
            simp only [dgetD, hco, Option.getD_some] at hcode
            rw [hcode]
      · simp only [Bool.not_eq_true] at hact
        cases hcam : dget data "camera" with
        | some v =>
          refine iff_of_true (by simp [normalize_event, h1, hact, hcam, Except.isOk, Except.toBool]) ?_
          refine ⟨by simp [h1], ?_⟩
          intro hsh
          simp [is_dahua_shape, h1, hact] at hsh
        | none =>
          refine iff_of_true (by simp [normalize_event, h1, hact, hcam, Except.isOk, Except.toBool]) ?_
          refine ⟨by simp [h1], ?_⟩
          intro hsh
          simp [is_dahua_shape, h1, hact] at hsh
  · intro e he
    cases h1 : dget data "EventNotificationAlert" with
    | some v =>
      cases v with
      | str s0 => simp [normalize_event, h1] at he
      | obj alert =>
        simp only [normalize_event, h1, Except.ok.injEq] at he
        rw [← he]
    | none =>
      by_cases hact : (match dget data "Action" with
          | some (Val.str s) => s == "Pulse"
          | _ => false) = true
      · cases hcode : dgetD data "Code" (Val.str "VideoMotion") with
        | str code =>
          simp only [normalize_event, h1, hact, if_true, hcode,
            Except.ok.injEq] at he
          rw [← he]
        | obj fs0 =>
          simp [normalize_event, h1, hact, hcode] at he
      · simp only [Bool.not_eq_true] at hact
        cases hcam : dget data "camera" with
        | some v =>
          simp only [normalize_event, h1, hact, Bool.false_eq_true, if_false,
            hcam, Except.ok.injEq] at he
          rw [← he]
        | none =>
          simp only [normalize_event, h1, hact, Bool.false_eq_true, if_false,
            hcam, Except.ok.injEq] at he
          rw [← he]
  · intro e he hsh
    cases h1 : dget data "EventNotificationAlert" with
    | some v =>
      cases v with
      | str s0 => simp [normalize_event, h1] at he
      | obj alert =>
        simp only [normalize_event, h1, Except.ok.injEq] at he
        rw [← he]
        cases h33 : dget alert "eventType" with
        | none => simp
        | some w =>
          cases w with
          | str s =>
            by_cases hfd : (s == "fielddetection") = true
            · simp [h33, hfd]
            · simp only [Bool.not_eq_true] at hfd
              simp [h33, hfd]
          | obj fs2 => simp [h33]
    | none =>
      by_cases hact : (match dget data "Action" with
          | some (Val.str s) => s == "Pulse"
          | _ => false) = true
      · cases hcode : dgetD data "Code" (Val.str "VideoMotion") with
        | str code =>
          simp only [normalize_event, h1, hact, if_true, hcode,
            Except.ok.injEq] at he
          rw [← he]
          by_cases hal : str_contains code "Alarm" = true
          · simp [hal]
          · simp only [Bool.not_eq_true] at hal
            simp [hal]
        | obj fs0 =>
          simp [normalize_event, h1, hact, hcode] at he
      · simp only [Bool.not_eq_true] at hact
        rcases hsh with hh | hd
        · simp [is_hikvision_shape, h1] at hh
        · simp [is_dahua_shape, h1, hact] at hd
  · intro e he hcl
    have htop := clean_strings_top hcl
    cases h1 : dget data "EventNotificationAlert" with
    | some v =>
      cases v with
      | str s0 => simp [normalize_event, h1] at he
      | obj alert =>
        simp only [normalize_event, h1, Except.ok.injEq] at he
        rw [← he]
        exact dgetD_ne_empty (clean_strings_inner hcl (dget_mem h1))
          (fun h => absurd (Val.str.inj h) (by decide))
    | none =>
      by_cases hact : (match dget data "Action" with
          | some (Val.str s) => s == "Pulse"
          | _ => false) = true
      · cases hcode : dgetD data "Code" (Val.str "VideoMotion") with
        | str code =>
          simp only [normalize_event, h1, hact, if_true, hcode,
            Except.ok.injEq] at he
          rw [← he]
          exact dgetD_ne_empty htop (dgetD_ne_empty htop
            (fun h => absurd (Val.str.inj h) (by decide)))
        | obj fs0 =>
          simp [normalize_event, h1, hact, hcode] at he
      · simp only [Bool.not_eq_true] at hact
        cases hcam : dget data "camera" with
        | some v =>
          simp only [normalize_event, h1, hact, Bool.false_eq_true, if_false,
            hcam, Except.ok.injEq] at he
          rw [← he]
          exact dgetD_ne_empty htop
            (fun h => absurd (Val.str.inj h) (by decide))
        | none =>
          simp only [normalize_event, h1, hact, Bool.false_eq_true, if_false,
            hcam, Except.ok.injEq] at he
          rw [← he]
          exact dgetD_ne_empty htop (dgetD_ne_empty htop
            (fun h => absurd (Val.str.inj h) (by decide)))

/-- A concrete Hikvision-shaped payload. -/
def demo_hik_payload : List (String × Val) :=
  [("EventNotificationAlert", Val.obj
      [("ipAddress", Val.str "192.168.1.100"),
       ("eventType", Val.str "fielddetection")])]

/-- The event `_normalize_event` produces for `demo_hik_payload`. -/
def demo_hik_event : Event :=
  ⟨Val.str "192.168.1.100", Val.str "fielddetection", none, Val.str "high",
    demo_hik_payload⟩

/-- Witness for C7 (amended): the Hikvision demo payload normalizes to an
event whose priority is drawn from normal/high. -/
theorem normalize_amended_witness :
    demo_hik_event.priority = Val.str "normal"
    ∨ demo_hik_event.priority = Val.str "high" :=
  (normalize_amended demo_hik_payload).2.2.1 demo_hik_event rfl (Or.inl rfl)
